import Mathlib

/-!
Verification of the upstream-tree traversal, tabular rendering and
parameter-override parsing logic of `orsted_excel_calculation.py`
(an openLCA Jython script).

The embedding below translates the relevant classes and functions of the
source file into executable Lean definitions:

* `index_of` / `letter_of`       — column-letter helpers (source lines 70-75);
* `Path`                         — the immutable linked path type (lines 85-97);
* `UpstreamTreeSheet.traverse`, `.write`, `.create_header`, `.write_sheet`
                                 — the contribution-tree traversal and sheet
                                   rendering (lines 100-174);
* `context_of`, `Lco2Modeler.set_system_parameters`
                                 — override application (lines 78-82, 209-220);
* `Lco2Modeler.get_headers`, `.parse_parameter`, `.parse_workbook_parameters`
                                 — workbook parameter parsing (lines 458-509).

Java/Jython data is modelled as follows: `UpstreamNode`s form the inductive
tree `UTree` (children are obtained from the tree itself, as `tree.childs(node)`
does in the source); numeric `double` values are `ℚ`; spreadsheet cell writes
are accumulated in a list instead of mutating a workbook; `print` diagnostics
are accumulated in a `List String`; uncaught Java/Python exceptions are
modelled with `Except PyError`.  The `SheetState` record additionally carries
two ghost trace fields, `visits` (one entry per call of the source's
`UpstreamTreeSheet.write`, i.e. per emitted row) and `calls` (one entry per
invocation of `traverse`, i.e. per explored node); all remaining fields are
translated directly from the source.
-/

namespace Orsted

/-- Source `index_of` (line 70): `ord(letter) - 65`. -/
def index_of (letter : Char) : ℤ :=
  (letter.toNat : ℤ) - 65

/-- Source `letter_of` (line 74): `chr(ord('@') + index + 1)`; `ord('@') = 64`. -/
def letter_of (index : ℤ) : Char :=
  Char.ofNat (64 + index + 1).toNat

/-- A `TechFlow` (the value of `UpstreamNode.provider()`): an opaque identity
plus the name of its `provider()` entity (`none` models a `null` provider
entity, checked at source line 158). -/
structure TechFlow where
  flowId : Nat
  providerName : Option String
deriving DecidableEq, Repr

/-- An `UpstreamNode` together with the child structure the source obtains
through `tree.childs(node)`: provider (possibly `null`, line 158), a numeric
`result()` and the list of child nodes. -/
inductive UTree : Type where
| node (provider : Option TechFlow) (result : ℚ) (childs : List UTree)

/-- `UpstreamNode.provider()`. -/
def UTree.provider : UTree → Option TechFlow
  | .node p _ _ => p

/-- `UpstreamNode.result()`. -/
def UTree.result : UTree → ℚ
  | .node _ r _ => r

/-- `tree.childs(node)`. -/
def UTree.childs : UTree → List UTree
  | .node _ _ cs => cs

/-- Source class `Path` (lines 85-97): a node plus an optional prefix path. -/
inductive Path : Type where
| mk (node : UTree) (pfx : Option Path)

/-- The `node` field of a `Path`. -/
def Path.node : Path → UTree
  | .mk n _ => n

/-- The `prefix` field of a `Path` (renamed `pfx` here). -/
def Path.pfx : Path → Option Path
  | .mk _ p => p

/-- Source line 90: `self.length = 0 if prefix is None else 1 + prefix.length`. -/
def Path.length : Path → Nat
  | .mk _ none => 0
  | .mk _ (some p) => 1 + p.length

/-- Source `Path.append` (line 92): `Path(node, self)`. -/
def Path.append (p : Path) (n : UTree) : Path :=
  Path.mk n (some p)

/-- Source `Path.count` (lines 95-97):
`c = 1 if tech_flow == self.node.provider() else 0;`
`return c + self.prefix.count(tech_flow) if self.prefix is not None else c`. -/
def Path.count (p : Path) (tech_flow : Option TechFlow) : Nat :=
  match p with
  | .mk n none => if tech_flow = n.provider then 1 else 0
  | .mk n (some q) => (if tech_flow = n.provider then 1 else 0) + q.count tech_flow

/-- A value written into a spreadsheet cell by `Excel.cell`. -/
inductive CellVal : Type where
| str (s : String)
| num (q : ℚ)
deriving DecidableEq, Repr

/-- The mutable per-sheet state of `UpstreamTreeSheet` (source lines 100-112)
plus the written cells.  `cells` records every `Excel.cell(sheet, row, col, v)`
call as `(row, col, v)` (cell styling via `Excel.bold` is not modelled).
`visits` and `calls` are ghost traces: `visits` gets one entry per call of
`UpstreamTreeSheet.write` (one per emitted row) and `calls` one entry per
invocation of `traverse`; no source logic reads them. -/
structure SheetState where
  row_index : Nat
  max_column : Nat
  results : List ℚ
  cells : List (Nat × ℤ × CellVal)
  visits : List Path
  calls : List Path

/-- The freshly constructed `UpstreamTreeSheet` state (source lines 109-112). -/
def initialSheetState : SheetState :=
  { row_index := 0, max_column := 0, results := [], cells := [], visits := [], calls := [] }

/-- The traversal parameters of `UpstreamTreeSheet`: the class constants
`MAX_DEPTH` and `MIN_CONTRIBUTION` (lines 101-102, made parameters so the
claims can quantify over them) and `self.total_result` (line 120). -/
structure TreeSheetConfig where
  maxDepth : Nat
  minContribution : ℚ
  total_result : ℚ

/-- Source constant `UpstreamTreeSheet.MAX_DEPTH = 4` (line 101). -/
def MAX_DEPTH : Nat := 4

/-- Source constant `UpstreamTreeSheet.MIN_CONTRIBUTION = 0.0` (line 102). -/
def MIN_CONTRIBUTION : ℚ := 0

namespace UpstreamTreeSheet

/-- Source `UpstreamTreeSheet.write` (lines 152-160):
increments `row_index`, appends `path.node.result()` to `results`, updates
`max_column` with `col_index = path.length`, and writes the parent-of-parent
name into cell `(row_index, col_index)` unless `node.provider()` or
`node.provider().provider()` is undefined.  The ghost `visits` trace records
the emitted row. -/
def write (path : Path) (s : SheetState) : SheetState :=
  let s1 : SheetState :=
    { s with
      row_index := s.row_index + 1
      results := s.results ++ [path.node.result]
      max_column := max path.length s.max_column
      visits := s.visits ++ [path] }
  match path.node.provider with
  | none => s1
  | some tf =>
    match tf.providerName with
    | none => s1
    | some nm =>
      { s1 with cells := s1.cells ++ [(s1.row_index, (path.length : ℤ), CellVal.str nm)] }

mutual

/-- Source `UpstreamTreeSheet.traverse` (lines 131-150): row-ceiling check,
zero-result check, minimum-contribution check (only when `total_result != 0`),
then `write`, then the depth check `path.length > MAX_DEPTH - 1` guarding the
recursion into the children.  The ghost `calls` trace records the invocation
(i.e. that this node was explored). -/
def traverse (cfg : TreeSheetConfig) (t : UTree) (pfx : Option Path) (s : SheetState) :
    SheetState :=
  match t with
  | .node pr r cs =>
    let path := Path.mk (UTree.node pr r cs) pfx
    let s0 := { s with calls := s.calls ++ [path] }
    if 1048574 ≤ s0.row_index then s0
    else if r = 0 then s0
    else if cfg.total_result ≠ 0 ∧ |r / cfg.total_result| < cfg.minContribution then s0
    else
      let s1 := write path s0
      if (path.length : ℤ) > (cfg.maxDepth : ℤ) - 1 then s1
      else traverseChilds cfg cs path s1

/-- The loop `for child in self.tree.childs(node): self.traverse(path.append(child))`
(lines 149-150).  `path.append(child)` is `Path.mk child (some path)`, so the
recursive call passes `child` and the prefix `some path`. -/
def traverseChilds (cfg : TreeSheetConfig) (ts : List UTree) (path : Path) (s : SheetState) :
    SheetState :=
  match ts with
  | [] => s
  | c :: rest => traverseChilds cfg rest path (traverse cfg c (some path) s)

end

/-- Source `UpstreamTreeSheet.create_header` (lines 162-174): the title cell at
`(0, index_of('A'))`, the `Processes` header at `(1, index_of('A'))`, the
result header at `(1, index_of('F'))` and the percentage header at
`(1, index_of('G'))` (bold styling not modelled). -/
def create_header (impact_category_name referenceUnit : String) (s : SheetState) :
    SheetState :=
  { s with
    cells := s.cells ++
      [ (0, index_of 'A', CellVal.str ("Upstream contributions to: " ++ impact_category_name)),
        (1, index_of 'A', CellVal.str "Processes"),
        (1, index_of 'F', CellVal.str ("Result [" ++ referenceUnit ++ "]")),
        (1, index_of 'G', CellVal.str "Percentage [%]") ] }

/-- One iteration of the results loop of `write_sheet` (lines 125-129):
`percentage = 100 * result / self.total_result if self.total_result != 0 else 0`,
then the result cell at `(i + 2, max_column + 1)` and the percentage cell at
`(i + 2, max_column + 2)`. -/
def write_results_step (total_result : ℚ) (acc : SheetState) (i : Nat) : SheetState :=
  let result := acc.results.getD i 0
  let percentage := if total_result ≠ 0 then 100 * result / total_result else 0
  { acc with
    cells := acc.cells ++
      [ (i + 2, (acc.max_column : ℤ) + 1, CellVal.num result),
        (i + 2, (acc.max_column : ℤ) + 2, CellVal.num percentage) ] }

/-- The results loop `for i in range(len(self.results))` of `write_sheet`
(lines 124-129). -/
def write_results (total_result : ℚ) (s : SheetState) : SheetState :=
  (List.range s.results.length).foldl (write_results_step total_result) s

/-- Source `UpstreamTreeSheet.write_sheet` (lines 114-129): create the header,
initialise `row_index = 1`, `max_column = 0`,
`total_result = self.tree.root.result()`, traverse from `Path(self.tree.root)`,
then write the results and percentage columns. -/
def write_sheet (maxDepth : Nat) (minContribution : ℚ)
    (impact_category_name referenceUnit : String) (root : UTree) : SheetState :=
  let s0 := create_header impact_category_name referenceUnit initialSheetState
  let total_result := root.result
  let s1 := { s0 with row_index := 1, max_column := 0 }
  let s2 := traverse
    { maxDepth := maxDepth, minContribution := minContribution, total_result := total_result }
    root none s1
  write_results total_result s2

end UpstreamTreeSheet

/-! ### Workbook parameter parsing and override application

The source reads the `Parameters check` sheet of the selected workbook
(`Lco2Modeler.parse_workbook_parameters`, lines 458-473) and applies the
resulting `(name, context) → value` mapping to the parameter sets of the
product systems (`Lco2Modeler.set_system_parameters`, lines 209-220).

A spreadsheet cell reached through `Excel.cell` is modelled by `SourceCell`:
`absent` (the returned `Optional` is not present), `null` (present but holding
`None`, which the source guards against on line 486), or a typed text/numeric
cell.  POI's typed getters throw `IllegalStateException` (a subclass of
`RuntimeException`) when called on a cell of the other type; this is modelled
by `getStringCellValue`/`getNumericCellValue` returning `none`.  Uncaught
Java/Python exceptions are modelled by `Except PyError`. -/

/-- The uncaught exceptions the parsing code can raise. -/
inductive PyError : Type where
| keyError (k : String)
| noSuchElement
| attributeError
| illegalState
| typeError
deriving DecidableEq, Repr

/-- A cell as obtained by `Excel.cell(sheet, row, col)`. -/
inductive SourceCell : Type where
| absent
| null
| strCell (s : String)
| numCell (q : ℚ)
deriving DecidableEq, Repr

/-- `Optional.isPresent()`. -/
def SourceCell.isPresent : SourceCell → Bool
  | .absent => false
  | _ => true

/-- `Optional.get()`: throws `NoSuchElementException` when not present,
otherwise yields the cell (`.null` means the held reference is `None`). -/
def SourceCell.get : SourceCell → Except PyError SourceCell
  | .absent => .error .noSuchElement
  | c => .ok c

/-- `Cell.getStringCellValue()`: `none` models the thrown
`IllegalStateException` on a non-text cell. -/
def getStringCellValue : SourceCell → Option String
  | .strCell s => some s
  | _ => none

/-- `Cell.getNumericCellValue()`: `none` models the thrown
`IllegalStateException` on a non-numeric cell. -/
def getNumericCellValue : SourceCell → Option ℚ
  | .numCell q => some q
  | _ => none

/-- A sheet: row `i`, column `j` holds `rows[i][j]` (absent outside). -/
structure PSheet where
  rows : List (List SourceCell)

/-- `Excel.cell(sheet, row, col)`. -/
def PSheet.cell (s : PSheet) (row col : Nat) : SourceCell :=
  (s.rows.getD row []).getD col .absent

/-- `sheet.lastRowNum`: the index of the last row. -/
def PSheet.lastRowNum (s : PSheet) : Nat :=
  s.rows.length - 1

/-- The header dictionary `dict[str, int]` built by `get_headers`. -/
abbrev HDict := List (String × Nat)

/-- Python dict assignment `d[k] = v`: replace the value of an existing key,
else append the new binding. -/
def hinsert : HDict → String → Nat → HDict
  | [], k, v => [(k, v)]
  | (k', v') :: rest, k, v =>
    if k' = k then (k, v) :: rest else (k', v') :: hinsert rest k v

/-- Python dict lookup `d.get(k)` / `d[k]` on the header dictionary. -/
def hget (d : HDict) (k : String) : Option Nat :=
  d.lookup k

/-- The parameter dictionary `dict[tuple[str, str], float]`. -/
abbrev PDict := List ((String × String) × ℚ)

/-- Python dict assignment on the parameter dictionary. -/
def dinsert : PDict → (String × String) → ℚ → PDict
  | [], k, v => [(k, v)]
  | (k', v') :: rest, k, v =>
    if k' = k then (k, v) :: rest else (k', v') :: dinsert rest k v

/-- Python dict lookup `d.get(k)` on the parameter dictionary. -/
def dget (d : PDict) (k : String × String) : Option ℚ :=
  d.lookup k

/-- Python `parameters.update(other)` for a dict argument. -/
def dupdate (d e : PDict) : PDict :=
  e.foldl (fun acc kv => dinsert acc kv.1 kv.2) d

/-- An openLCA `ParameterRedef`: a name, an optional scoping `contextId`
(the id of the owning process) and a mutable numeric value. -/
structure ParameterRedef where
  name : String
  contextId : Option Nat
  value : ℚ
deriving DecidableEq, Repr

/-- An openLCA `ParameterRedefSet`. -/
structure ParameterRedefSet where
  parameters : List ParameterRedef
deriving DecidableEq, Repr

/-- The `parameterSets` of an openLCA `ProductSystem`. -/
structure ProductSystem where
  parameterSets : List ParameterRedefSet
deriving DecidableEq, Repr

/-- Source `context_of` (lines 78-82): the name of the process with id
`param.contextId` when `param.contextId` is truthy (Jython treats both `None`
and `0` as falsy), else the sentinel `"global"`.  `db` maps a process id to
its name (`db.get(Process, id).name`). -/
def context_of (db : Nat → String) (param : ParameterRedef) : String :=
  match param.contextId with
  | some cid => if cid ≠ 0 then db cid else "global"
  | none => "global"

namespace Lco2Modeler

/-- Source `Lco2Modeler.set_system_parameters` (lines 209-220): for every
parameter of every parameter set, look up `(param.name, context_of(param))`
in `new_params` and overwrite `param.value` when a binding is found
(`db.update(system)` persistence is not modelled; the updated system is
returned). -/
def set_system_parameters (db : Nat → String) (system : ProductSystem)
    (new_params : PDict) : ProductSystem :=
  if system.parameterSets = [] then system
  else
    { system with
      parameterSets := system.parameterSets.map (fun parameter_set =>
        { parameter_set with
          parameters := parameter_set.parameters.map (fun param =>
            match dget new_params (param.name, context_of db param) with
            | some v => { param with value := v }
            | none => param) }) }

/-- The indices scanned by `get_headers` (line 502):
`range(header_row.lastCellNum + 1)`.  POI's `Row.getLastCellNum` is the index
of the last cell **plus one** (so `n` for a dense row of `n` cells) and `-1`
for an empty row, so the scan covers indices `0 .. n` (one past the last cell)
for a non-empty row and nothing for an empty one. -/
def headerIndices (n : Nat) : List Nat :=
  if n = 0 then [] else List.range (n + 1)

/-- The loop body of `get_headers` (lines 502-508) over the remaining column
indices, accumulating the header dictionary and the printed diagnostics.
A present text cell is entered into the dictionary; a present numeric cell
makes `getStringCellValue` throw an uncaught `IllegalStateException`; a
present `None` makes the `.getStringCellValue()` attribute access raise; an
absent cell is only reported (when `warning` is set). -/
def get_headers_go (warning : Bool) (header_row : List SourceCell) :
    List Nat → HDict → List String × Except PyError HDict
  | [], acc => ([], .ok acc)
  | i :: rest, acc =>
    match header_row.getD i .absent with
    | .strCell s => get_headers_go warning header_row rest (hinsert acc s i)
    | .numCell _ => ([], .error .illegalState)
    | .null => ([], .error .attributeError)
    | .absent =>
      let ds :=
        if warning then
          ["Cell " ++ (letter_of (i : ℤ)).toString ++ "1 does not exist!"]
        else []
      let r := get_headers_go warning header_row rest acc
      (ds ++ r.1, r.2)

/-- Source `Lco2Modeler.get_headers` (lines 499-509). -/
def get_headers (warning : Bool) (sheet : PSheet) : List String × Except PyError HDict :=
  let header_row := sheet.rows.getD 0 []
  get_headers_go warning header_row (headerIndices header_row.length) []

/-- Source `Lco2Modeler.parse_parameter` (lines 475-497):
resolve the three required columns (an absent key raises `KeyError`), fetch
the three cells, soft-skip the row (returning `{}`) with a diagnostic when
`warning` is set and a cell is not present, soft-skip with a diagnostic when a
fetched cell holds `None`, then extract name (text), value (numeric) and
context (text).  When an extraction throws `RuntimeException` the handler
prints the diagnostic and **falls through without a return statement**, so the
function yields Python `None` — modelled as `.ok none`; a successful row
yields `.ok (some [((name, context), value)])`. -/
def parse_parameter (warning : Bool) (sheet : PSheet) (row_index : Nat)
    (columns : HDict) : List String × Except PyError (Option PDict) :=
  match hget columns "Parameter" with
  | none => ([], .error (.keyError "Parameter"))
  | some column_index =>
    match hget columns "Modified value" with
    | none => ([], .error (.keyError "Modified value"))
    | some mv_index =>
      match hget columns "Context" with
      | none => ([], .error (.keyError "Context"))
      | some ctx_index =>
        let name_cell := sheet.cell row_index column_index
        let modified_value_cell := sheet.cell row_index mv_index
        let context_value_cell := sheet.cell row_index ctx_index
        let failMsg :=
          "Fail to parse " ++ (letter_of (column_index : ℤ)).toString ++
            toString row_index ++ " parameter."
        if warning ∧
            ¬(name_cell.isPresent ∧ modified_value_cell.isPresent ∧
              context_value_cell.isPresent) then
          ([failMsg], .ok (some []))
        else
          match name_cell.get with
          | .error e => ([], .error e)
          | .ok nc =>
            if nc = .null then
              (["A cell is empty on row " ++ toString row_index ++ "."], .ok (some []))
            else
              match modified_value_cell.get with
              | .error e => ([], .error e)
              | .ok mc =>
                if mc = .null then
                  (["A cell is empty on row " ++ toString row_index ++ "."], .ok (some []))
                else
                  match context_value_cell.get with
                  | .error e => ([], .error e)
                  | .ok cc =>
                    if cc = .null then
                      (["A cell is empty on row " ++ toString row_index ++ "."],
                        .ok (some []))
                    else
                      match getStringCellValue nc, getNumericCellValue mc,
                          getStringCellValue cc with
                      | some name, some value, some context =>
                        ([], .ok (some [((name, context), value)]))
                      | _, _, _ => ([failMsg], .ok none)

/-- The loop `for row_num in range(1, sheet.lastRowNum + 1):
`parameters.update(self.parse_parameter(...))` (lines 470-471).  When
`parse_parameter` yields Python `None`, `dict.update(None)` raises
`TypeError`. -/
def parse_rows (warning : Bool) (sheet : PSheet) (columns : HDict) :
    List Nat → PDict → List String × Except PyError PDict
  | [], acc => ([], .ok acc)
  | r :: rest, acc =>
    let p := parse_parameter warning sheet r columns
    match p.2 with
    | .error e => (p.1, .error e)
    | .ok none => (p.1, .error .typeError)
    | .ok (some kvs) =>
      let q := parse_rows warning sheet columns rest (dupdate acc kvs)
      (p.1 ++ q.1, q.2)

/-- Source `Lco2Modeler.parse_workbook_parameters` (lines 458-473): resolve
the headers, then fold `parse_parameter` over the data rows
`1 .. sheet.lastRowNum`, accumulating the parameter dictionary and the
printed diagnostics. -/
def parse_workbook_parameters (warning : Bool) (sheet : PSheet) :
    List String × Except PyError PDict :=
  let h := get_headers warning sheet
  match h.2 with
  | .error e => (h.1, .error e)
  | .ok columns =>
    let pr := parse_rows warning sheet columns (List.range' 1 sheet.lastRowNum) []
    (h.1 ++ pr.1, pr.2)

end Lco2Modeler

/-! ### Helper lemmas -/

/-- Strong induction over the node tree: to prove `P` everywhere it suffices
to prove it at each node assuming it for all children. -/
def UTree.strongInd {P : UTree → Prop}
    (h : ∀ pr r cs, (∀ c ∈ cs, P c) → P (UTree.node pr r cs)) : ∀ t, P t
  | UTree.node pr r cs => h pr r cs (fun c hc => UTree.strongInd h c)
termination_by t => sizeOf t
decreasing_by
  have hlt := List.sizeOf_lt_of_mem hc
  simp only [UTree.node.sizeOf_spec]
  omega

/-- Relation between the sheet state before and after a traversal step: every
new emitted visit is depth-bounded and has a nonzero result, every new
explored node is depth-bounded, and previously written cells are preserved. -/
def TravInv (cfg : TreeSheetConfig) (s s' : SheetState) : Prop :=
  (∀ p ∈ s'.visits, p ∈ s.visits ∨ (p.length ≤ cfg.maxDepth ∧ p.node.result ≠ 0))
  ∧ (∀ p ∈ s'.calls, p ∈ s.calls ∨ p.length ≤ cfg.maxDepth)
  ∧ (∀ x ∈ s.cells, x ∈ s'.cells)

/-! Concrete inputs used by the counterexamples and witnesses. -/

/-- A technosphere flow named `A`. -/
def tfA : TechFlow := ⟨0, some "A"⟩

/-- A linear contribution chain of five nodes that all share the provider
`tfA`, each with result `1`: the provider recurs at every depth `0..4`. -/
def chainA : UTree :=
  .node (some tfA) 1
    [.node (some tfA) 1
      [.node (some tfA) 1
        [.node (some tfA) 1
          [.node (some tfA) 1 []]]]]

/-- A root-only contribution tree with result `100`. -/
def oneNode : UTree := .node (some ⟨1, some "Root"⟩) 100 []

/-- A root whose result is `0`. -/
def zeroNode : UTree := .node (some tfA) 0 [.node (some tfA) 3 []]

/-- A path holding only `zeroNode`. -/
def zeroPath : Path := .mk zeroNode none

/-- A `Parameters check` sheet whose header is well-formed and whose second
data row has text in the `Modified value` column, so that numeric extraction
throws `RuntimeException`; a further good row follows. -/
def sheetBadValue : PSheet :=
  ⟨[[.strCell "Parameter", .strCell "Modified value", .strCell "Context"],
    [.strCell "Density", .numCell 5, .strCell "global"],
    [.strCell "Mass", .strCell "oops", .strCell "global"],
    [.strCell "Height", .numCell 7, .strCell "ProcessA"]]⟩

/-- A `Parameters check` sheet whose header row has three present text cells
but none of them named `Parameter`, plus one well-formed data row. -/
def sheetNoParamColumn : PSheet :=
  ⟨[[.strCell "Parameterz", .strCell "Modified value", .strCell "Context"],
    [.strCell "Density", .numCell 5, .strCell "global"]]⟩

/-- The header dictionary `get_headers` resolves for `sheetNoParamColumn`. -/
def colsNoParam : HDict :=
  [("Parameterz", 0), ("Modified value", 1), ("Context", 2)]

/-- A parameter named `Density` scoped to process `7`, a parameter named
`Density` with no scope, and one unmatched parameter, in one parameter set. -/
def demoSystem : ProductSystem :=
  ⟨[⟨[⟨"Density", some 7, 1⟩, ⟨"Density", none, 2⟩, ⟨"Other", none, 3⟩]⟩]⟩

/-- A process-name database mapping id `7` to `ProcessA`. -/
def demoDb : Nat → String := fun cid => if cid = 7 then "ProcessA" else "ProcessB"

/-- The override mapping of the spec's scoping example. -/
def demoOverrides : PDict :=
  [(("Density", "global"), 5), (("Density", "ProcessA"), 9)]

/-- A provider whose parent entity is undefined
(`node.provider().provider() is None`). -/
def tfNoName : TechFlow := ⟨3, none⟩

/-- A path ending at a node whose provider has no parent entity name. -/
def pathNoName : Path := .mk (.node (some tfNoName) 4 []) none

/-- A starting state used by witness instantiations. -/
def demoState : SheetState :=
  { row_index := 1, max_column := 0, results := [], cells := [], visits := [], calls := [] }

/-- A provider occurs along a path at most once per node of the path. -/
theorem Path.count_le_length : ∀ (p : Path) (tf : Option TechFlow), p.count tf ≤ p.length + 1
  | .mk n none, tf => by
    simp only [Path.count, Path.length]
    split <;> omega
  | .mk n (some q), tf => by
    have h := Path.count_le_length q tf
    simp only [Path.count, Path.length]
    split <;> omega

namespace UpstreamTreeSheet

/-- Closed form of `write`: all fields of the resulting state. -/
theorem write_eq (p : Path) (s : SheetState) :
    write p s =
      { s with
        row_index := s.row_index + 1
        results := s.results ++ [p.node.result]
        max_column := max p.length s.max_column
        visits := s.visits ++ [p]
        cells := s.cells ++
          (match p.node.provider with
            | none => []
            | some tf =>
              match tf.providerName with
              | none => []
              | some nm => [(s.row_index + 1, (p.length : ℤ), CellVal.str nm)]) } := by
  unfold write
  rcases hp : p.node.provider with _ | tf
  · simp
  · rcases hn : tf.providerName with _ | nm <;> simp [hn]

/-- `TravInv` is reflexive. -/
theorem travInv_refl (cfg : TreeSheetConfig) (s : SheetState) : TravInv cfg s s :=
  ⟨fun p hp => Or.inl hp, fun p hp => Or.inl hp, fun _ hx => hx⟩

/-- `TravInv` composes. -/
theorem travInv_trans {cfg : TreeSheetConfig} {s s' s'' : SheetState}
    (h1 : TravInv cfg s s') (h2 : TravInv cfg s' s'') : TravInv cfg s s'' := by
  refine ⟨fun p hp => ?_, fun p hp => ?_, fun x hx => h2.2.2 x (h1.2.2 x hx)⟩
  · rcases h2.1 p hp with h | h
    · exact h1.1 p h
    · exact Or.inr h
  · rcases h2.2.1 p hp with h | h
    · exact h1.2.1 p h
    · exact Or.inr h

/-- `traverseChilds` satisfies `TravInv`, given that each child's `traverse`
does. -/
theorem traverseChilds_travInv (cfg : TreeSheetConfig) (path : Path)
    (hl : path.length + 1 ≤ cfg.maxDepth) :
    ∀ ts : List UTree,
      (∀ c ∈ ts, ∀ (pfx : Option Path) (s : SheetState),
        (Path.mk c pfx).length ≤ cfg.maxDepth → TravInv cfg s (traverse cfg c pfx s)) →
      ∀ s : SheetState, TravInv cfg s (traverseChilds cfg ts path s)
  | [], _, s => by
    rw [traverseChilds]
    exact travInv_refl cfg s
  | c :: rest, IH, s => by
    rw [traverseChilds]
    have hlen : (Path.mk c (some path)).length ≤ cfg.maxDepth := by
      simp only [Path.length]
      omega
    have h1 : TravInv cfg s (traverse cfg c (some path) s) :=
      IH c (List.mem_cons_self c rest) (some path) s hlen
    have h2 := traverseChilds_travInv cfg path hl rest
      (fun d hd => IH d (List.mem_cons_of_mem c hd)) (traverse cfg c (some path) s)
    exact travInv_trans h1 h2

/-- Every `traverse` call whose entry path respects the depth bound yields a
state related to the input state by `TravInv`. -/
theorem traverse_travInv (cfg : TreeSheetConfig) :
    ∀ t : UTree, ∀ (pfx : Option Path) (s : SheetState),
      (Path.mk t pfx).length ≤ cfg.maxDepth → TravInv cfg s (traverse cfg t pfx s) := by
  intro t
  induction t using UTree.strongInd with
  | _ pr r cs IH =>
    intro pfx s hl
    rw [traverse]
    simp only []
    by_cases h1 : 1048574 ≤ s.row_index
    · rw [if_pos h1]
      refine ⟨fun p hp => Or.inl hp, fun p hp => ?_, fun x hx => hx⟩
      rcases List.mem_append.mp hp with h | h
      · exact Or.inl h
      · simp only [List.mem_singleton] at h
        subst h
        exact Or.inr hl
    · rw [if_neg h1]
      by_cases h2 : r = 0
      · rw [if_pos h2]
        refine ⟨fun p hp => Or.inl hp, fun p hp => ?_, fun x hx => hx⟩
        rcases List.mem_append.mp hp with h | h
        · exact Or.inl h
        · simp only [List.mem_singleton] at h
          subst h
          exact Or.inr hl
      · rw [if_neg h2]
        by_cases h3 : cfg.total_result ≠ 0 ∧ |r / cfg.total_result| < cfg.minContribution
        · rw [if_pos h3]
          refine ⟨fun p hp => Or.inl hp, fun p hp => ?_, fun x hx => hx⟩
          rcases List.mem_append.mp hp with h | h
          · exact Or.inl h
          · simp only [List.mem_singleton] at h
            subst h
            exact Or.inr hl
        · rw [if_neg h3]
          have hwrite : TravInv cfg s
              (write (Path.mk (UTree.node pr r cs) pfx)
                { s with calls := s.calls ++ [Path.mk (UTree.node pr r cs) pfx] }) := by
            rw [write_eq]
            refine ⟨fun p hp => ?_, fun p hp => ?_, fun x hx => ?_⟩
            · simp only at hp
              rcases List.mem_append.mp hp with h | h
              · exact Or.inl h
              · simp only [List.mem_singleton] at h
                subst h
                exact Or.inr ⟨hl, by simpa [UTree.result] using h2⟩
            · simp only at hp
              rcases List.mem_append.mp hp with h | h
              · exact Or.inl h
              · simp only [List.mem_singleton] at h
                subst h
                exact Or.inr hl
            · simp only
              exact List.mem_append_left _ hx
          by_cases h4 : ((Path.mk (UTree.node pr r cs) pfx).length : ℤ) > (cfg.maxDepth : ℤ) - 1
          · rw [if_pos h4]
            exact hwrite
          · rw [if_neg h4]
            have hl' : (Path.mk (UTree.node pr r cs) pfx).length + 1 ≤ cfg.maxDepth := by
              omega
            have hrest := traverseChilds_travInv cfg (Path.mk (UTree.node pr r cs) pfx) hl' cs IH
              (write (Path.mk (UTree.node pr r cs) pfx)
                { s with calls := s.calls ++ [Path.mk (UTree.node pr r cs) pfx] })
            exact travInv_trans hwrite hrest

/-- Closed form of one results-loop iteration. -/
theorem write_results_step_eq (total_result : ℚ) (acc : SheetState) (i : Nat) :
    write_results_step total_result acc i =
      { acc with
        cells := acc.cells ++
          [ (i + 2, (acc.max_column : ℤ) + 1, CellVal.num (acc.results.getD i 0)),
            (i + 2, (acc.max_column : ℤ) + 2,
              CellVal.num (if total_result ≠ 0 then
                  100 * acc.results.getD i 0 / total_result
                else 0)) ] } := rfl

/-- The results loop only appends cells: all other fields are preserved and
existing cells remain. -/
theorem wrs_foldl_fields (total_result : ℚ) :
    ∀ (l : List Nat) (acc : SheetState),
      (l.foldl (write_results_step total_result) acc).results = acc.results
      ∧ (l.foldl (write_results_step total_result) acc).max_column = acc.max_column
      ∧ (l.foldl (write_results_step total_result) acc).visits = acc.visits
      ∧ (l.foldl (write_results_step total_result) acc).calls = acc.calls
      ∧ ∀ x ∈ acc.cells, x ∈ (l.foldl (write_results_step total_result) acc).cells
  | [], acc => by simp
  | i :: rest, acc => by
    simp only [List.foldl_cons]
    obtain ⟨h1, h2, h3, h4, h5⟩ :=
      wrs_foldl_fields total_result rest (write_results_step total_result acc i)
    rw [write_results_step_eq] at h1 h2 h3 h4 h5
    refine ⟨h1, h2, h3, h4, fun x hx => ?_⟩
    exact h5 x (List.mem_append_left _ hx)

/-- Every index of the results loop gets its result and percentage cell. -/
theorem wrs_foldl_mem (total_result : ℚ) :
    ∀ (l : List Nat) (acc : SheetState), ∀ i ∈ l,
      ((i + 2, (acc.max_column : ℤ) + 1, CellVal.num (acc.results.getD i 0))
          ∈ (l.foldl (write_results_step total_result) acc).cells)
      ∧ ((i + 2, (acc.max_column : ℤ) + 2,
            CellVal.num (if total_result ≠ 0 then
                100 * acc.results.getD i 0 / total_result
              else 0))
          ∈ (l.foldl (write_results_step total_result) acc).cells)
  | [], _, i, hi => absurd hi (List.not_mem_nil i)
  | j :: rest, acc, i, hi => by
    simp only [List.foldl_cons]
    rcases List.mem_cons.mp hi with rfl | hi'
    · have h5 :=
        (wrs_foldl_fields total_result rest (write_results_step total_result acc i)).2.2.2.2
      constructor <;> (apply h5; rw [write_results_step_eq]; simp)
    · have h := wrs_foldl_mem total_result rest (write_results_step total_result acc j) i hi'
      rw [write_results_step_eq] at h ⊢
      simpa using h

/-- `write_results` preserves all fields except `cells`, and keeps cells. -/
theorem write_results_fields (total_result : ℚ) (s : SheetState) :
    (write_results total_result s).results = s.results
    ∧ (write_results total_result s).max_column = s.max_column
    ∧ (write_results total_result s).visits = s.visits
    ∧ (write_results total_result s).calls = s.calls
    ∧ ∀ x ∈ s.cells, x ∈ (write_results total_result s).cells :=
  wrs_foldl_fields total_result (List.range s.results.length) s

/-- `write_results` writes the result and percentage cell of every row. -/
theorem write_results_mem (total_result : ℚ) (s : SheetState) (i : Nat)
    (hi : i < s.results.length) :
    ((i + 2, (s.max_column : ℤ) + 1, CellVal.num (s.results.getD i 0))
        ∈ (write_results total_result s).cells)
    ∧ ((i + 2, (s.max_column : ℤ) + 2,
          CellVal.num (if total_result ≠ 0 then
              100 * s.results.getD i 0 / total_result
            else 0))
        ∈ (write_results total_result s).cells) :=
  wrs_foldl_mem total_result (List.range s.results.length) s i (List.mem_range.mpr hi)

/-- `write_sheet` unfolded into its three stages. -/
theorem write_sheet_eq (maxDepth : Nat) (minContribution : ℚ)
    (impact_category_name referenceUnit : String) (root : UTree) :
    write_sheet maxDepth minContribution impact_category_name referenceUnit root =
      write_results root.result
        (traverse
          { maxDepth := maxDepth, minContribution := minContribution,
            total_result := root.result }
          root none
          { create_header impact_category_name referenceUnit initialSheetState with
              row_index := 1, max_column := 0 }) := rfl

/-- The percentage cell of every row index ends up in the final cells. -/
theorem wr_pct_mem (total_result : ℚ) (s2 : SheetState) (i : Nat)
    (hi : i < (write_results total_result s2).results.length) :
    ((i + 2, ((write_results total_result s2).max_column : ℤ) + 2,
        CellVal.num (if total_result ≠ 0 then
            100 * ((write_results total_result s2).results.getD i 0) / total_result
          else 0))
      ∈ (write_results total_result s2).cells) := by
  obtain ⟨hres, hmax, -, -, -⟩ := write_results_fields total_result s2
  rw [hres, hmax]
  rw [hres] at hi
  exact (write_results_mem total_result s2 i hi).2

/-- The result cell of every row index ends up in the final cells. -/
theorem wr_res_mem (total_result : ℚ) (s2 : SheetState) (i : Nat)
    (hi : i < (write_results total_result s2).results.length) :
    ((i + 2, ((write_results total_result s2).max_column : ℤ) + 1,
        CellVal.num ((write_results total_result s2).results.getD i 0))
      ∈ (write_results total_result s2).cells) := by
  obtain ⟨hres, hmax, -, -, -⟩ := write_results_fields total_result s2
  rw [hres, hmax]
  rw [hres] at hi
  exact (write_results_mem total_result s2 i hi).1

/-! ### Claims -/

/-- C5: for every traversal with `maxDepth = d` (the reference default is
`MAX_DEPTH = 4`), no emitted Visit has a path length (edges from root)
greater than `d`, and no explored node (no `traverse` invocation) lies beyond
depth `d`. -/
theorem C5_depth_bound (maxDepth : Nat) (minContribution : ℚ)
    (impact_category_name referenceUnit : String) (root : UTree) :
    (∀ n ∈ (write_sheet maxDepth minContribution impact_category_name referenceUnit
        root).visits.map Path.length, n ≤ maxDepth)
    ∧ (∀ n ∈ (write_sheet maxDepth minContribution impact_category_name referenceUnit
        root).calls.map Path.length, n ≤ maxDepth) := by
  have htrav := traverse_travInv
    { maxDepth := maxDepth, minContribution := minContribution, total_result := root.result }
    root none
    { create_header impact_category_name referenceUnit initialSheetState with
        row_index := 1, max_column := 0 }
    (by simp [Path.length])
  constructor <;> intro n hn <;> rw [write_sheet_eq] at hn
  · rw [(write_results_fields _ _).2.2.1] at hn
    rw [List.mem_map] at hn
    obtain ⟨p, hp, rfl⟩ := hn
    rcases htrav.1 p hp with h | h
    · simp [create_header, initialSheetState] at h
    · exact h.1
  · rw [(write_results_fields _ _).2.2.2.1] at hn
    rw [List.mem_map] at hn
    obtain ⟨p, hp, rfl⟩ := hn
    rcases htrav.2.1 p hp with h | h
    · simp [create_header, initialSheetState] at h
    · exact h

/-- C5 witness: in the traversal of the five-node provider chain with depth
bound 4, some visit has path length 4, and the theorem bounds it by 4. -/
theorem C5_depth_bound_witness :
    (4 ∈ (write_sheet 4 0 "Climate change" "kg" chainA).visits.map Path.length)
    ∧ (4 : Nat) ≤ 4 :=
  ⟨by with_unfolding_all decide,
    (C5_depth_bound 4 0 "Climate change" "kg" chainA).1 4 (by with_unfolding_all decide)⟩

/-- C3 counterexample: the code applies no recurrence bound at all
(`Path.count` is never consulted by `traverse`).  On a five-node chain that
repeats one provider at every depth, the default traversal emits visits whose
provider occurrence counts along their paths are `1, 2, 3, 4, 5`; in
particular the claim's bound `occurrences(provider) ≤ r + 1` fails for every
configured `maxRecurrence = r ≤ 3`, e.g. for the spec's own example `r = 1`
the bound `2` is exceeded by an emitted (not pruned) visit with occurrence
count `5`. -/
theorem C3_counterexample :
    ((write_sheet MAX_DEPTH MIN_CONTRIBUTION "Climate change" "kg CO2 eq" chainA).visits.map
        (fun p => p.count p.node.provider) = [1, 2, 3, 4, 5])
    ∧ ¬ (∀ n ∈ (write_sheet MAX_DEPTH MIN_CONTRIBUTION "Climate change" "kg CO2 eq"
          chainA).visits.map (fun p => p.count p.node.provider), n ≤ 1 + 1) := by
  constructor
  · with_unfolding_all rfl
  · intro hall
    have h5 := hall 5 (by with_unfolding_all decide)
    omega

/-- C3 (amended): the traversal applies no recurrence pruning; the only bound
on provider occurrences along the path of an emitted Visit is the trivial one
implied by the depth bound, `occurrences(provider) ≤ maxDepth + 1`
(`5` at the reference default `MAX_DEPTH = 4`). -/
theorem C3_recurrence_trivial_bound (maxDepth : Nat) (minContribution : ℚ)
    (impact_category_name referenceUnit : String) (root : UTree) :
    ∀ n ∈ (write_sheet maxDepth minContribution impact_category_name referenceUnit
        root).visits.map (fun p => p.count p.node.provider), n ≤ maxDepth + 1 := by
  intro n hn
  rw [write_sheet_eq] at hn
  rw [(write_results_fields _ _).2.2.1] at hn
  rw [List.mem_map] at hn
  obtain ⟨p, hp, rfl⟩ := hn
  have htrav := traverse_travInv
    { maxDepth := maxDepth, minContribution := minContribution, total_result := root.result }
    root none
    { create_header impact_category_name referenceUnit initialSheetState with
        row_index := 1, max_column := 0 }
    (by simp [Path.length])
  rcases htrav.1 p hp with h | h
  · simp [create_header, initialSheetState] at h
  · have hb : p.length ≤ maxDepth := h.1
    have hc := Path.count_le_length p p.node.provider
    omega

/-- C3 witness for the amended bound: the deepest visit of the provider chain
has occurrence count 5 and the theorem bounds it by `4 + 1`. -/
theorem C3_recurrence_trivial_bound_witness :
    (5 ∈ (write_sheet 4 0 "Climate change" "kg" chainA).visits.map
        (fun p => p.count p.node.provider))
    ∧ (5 : Nat) ≤ 4 + 1 :=
  ⟨by with_unfolding_all decide,
    C3_recurrence_trivial_bound 4 0 "Climate change" "kg" chainA 5
      (by with_unfolding_all decide)⟩

/-- C8: for every traversal and every policy setting (any `maxDepth`,
`minContribution` and `total_result`, in particular `minContribution = 0` and
`total_result = 0`), a node whose result is `0` is neither emitted as a Visit
nor is its subtree explored: `traverse` returns the state unchanged except for
the ghost record of the one pruned invocation. -/
theorem C8_zero_result_pruned (cfg : TreeSheetConfig) (t : UTree) (pfx : Option Path)
    (s : SheetState) (h : t.result = 0) :
    traverse cfg t pfx s = { s with calls := s.calls ++ [Path.mk t pfx] } := by
  cases t with
  | node pr r cs =>
    simp only [UTree.result] at h
    subst h
    rw [traverse]
    split
    · rfl
    · simp

/-- C8 witness: the zero-result root with a nonzero child is pruned whole —
no visit, no write, no exploration of the child. -/
theorem C8_zero_result_pruned_witness :
    zeroNode.result = 0
    ∧ traverse { maxDepth := 4, minContribution := 0, total_result := 0 } zeroNode none
        demoState = { demoState with calls := demoState.calls ++ [Path.mk zeroNode none] } :=
  ⟨rfl, C8_zero_result_pruned
    { maxDepth := 4, minContribution := 0, total_result := 0 } zeroNode none demoState rfl⟩

/-- C9: when an emitted node has no addressable parent identity (its
`provider()` or its `provider().provider()` is undefined), `write` writes no
label cell, but the row still consumes exactly one bookkeeping slot: the
result is appended, the row index advances, and the depth enters
`max_column`. -/
theorem C9_unlabelled_row_bookkeeping (p : Path) (s : SheetState)
    (h : p.node.provider = none
      ∨ ∃ tf, p.node.provider = some tf ∧ tf.providerName = none) :
    write p s =
      { s with
        row_index := s.row_index + 1
        results := s.results ++ [p.node.result]
        max_column := max p.length s.max_column
        visits := s.visits ++ [p] } := by
  rw [write_eq]
  rcases h with h | ⟨tf, h1, h2⟩
  · simp [h]
  · simp [h1, h2]

/-- C9 witness: a root-adjacent node whose provider chain is incomplete is
written without a label cell yet consumes a results slot. -/
theorem C9_unlabelled_row_bookkeeping_witness :
    (pathNoName.node.provider = some tfNoName ∧ tfNoName.providerName = none)
    ∧ write pathNoName demoState =
      { demoState with
        row_index := demoState.row_index + 1
        results := demoState.results ++ [pathNoName.node.result]
        max_column := max pathNoName.length demoState.max_column
        visits := demoState.visits ++ [pathNoName] } :=
  ⟨⟨rfl, rfl⟩,
    C9_unlabelled_row_bookkeeping pathNoName demoState (Or.inr ⟨tfNoName, rfl, rfl⟩)⟩

/-- C6: for every traversal, the percentage cell written for the `i`-th
emitted row (at row `i + 2`, column `max_column + 2`) holds
`100 * result_i / T` when the total root result `T` is nonzero and `0` when
`T = 0`, where `result_i` is the `i`-th accumulated result in visitation
order. -/
theorem C6_percentage_correct (maxDepth : Nat) (minContribution : ℚ)
    (impact_category_name referenceUnit : String) (root : UTree) (i : Nat)
    (hi : i < (write_sheet maxDepth minContribution impact_category_name referenceUnit
        root).results.length) :
    ((i + 2,
        ((write_sheet maxDepth minContribution impact_category_name referenceUnit
            root).max_column : ℤ) + 2,
        CellVal.num (if root.result ≠ 0 then
            100 * ((write_sheet maxDepth minContribution impact_category_name referenceUnit
                root).results.getD i 0) / root.result
          else 0))
      ∈ (write_sheet maxDepth minContribution impact_category_name referenceUnit
          root).cells) := by
  rw [write_sheet_eq] at hi ⊢
  exact wr_pct_mem root.result _ i hi

/-- C6 witness: the single-row traversal of `oneNode` (total `100`) gets a
percentage cell holding `100 * 100 / 100` at row 2, column `max_column + 2`. -/
theorem C6_percentage_correct_witness :
    0 < (write_sheet 4 0 "Climate change" "kg CO2 eq" oneNode).results.length
    ∧ ((0 + 2,
        ((write_sheet 4 0 "Climate change" "kg CO2 eq" oneNode).max_column : ℤ) + 2,
        CellVal.num (if oneNode.result ≠ 0 then
            100 * ((write_sheet 4 0 "Climate change" "kg CO2 eq"
                oneNode).results.getD 0 0) / oneNode.result
          else 0))
      ∈ (write_sheet 4 0 "Climate change" "kg CO2 eq" oneNode).cells) :=
  ⟨by with_unfolding_all decide,
    C6_percentage_correct 4 0 "Climate change" "kg CO2 eq" oneNode 0
      (by with_unfolding_all decide)⟩

/-- C4 counterexample: on a root-only traversal (observed maximum depth 0) the
fixed header cells are written at row 1, columns 5 and 6 (`F` and `G`), while
`max_column = 0`, so the per-row result and percentage values land at columns
1 and 2 — the headers are *not* at `max_column + 1` and `max_column + 2` and
no cell at all is written at row 1, columns 1 or 2. -/
theorem C4_counterexample :
    (write_sheet 4 0 "Climate change" "kg CO2 eq" oneNode).max_column = 0
    ∧ (write_sheet 4 0 "Climate change" "kg CO2 eq" oneNode).cells =
      [ (0, 0, CellVal.str "Upstream contributions to: Climate change"),
        (1, 0, CellVal.str "Processes"),
        (1, 5, CellVal.str "Result [kg CO2 eq]"),
        (1, 6, CellVal.str "Percentage [%]"),
        (2, 0, CellVal.str "Root"),
        (2, 1, CellVal.num 100),
        (2, 2, CellVal.num 100) ] := by
  constructor
  · with_unfolding_all rfl
  · with_unfolding_all rfl

/-- C4 (amended): the fixed `Result [unit]` and `Percentage [%]` header cells
are always written at row 1, columns `index_of('F') = 5` and
`index_of('G') = 6`, independent of the observed maximum depth, while the
per-row result values are written at column `max_column + 1`; the two sets of
columns coincide only when the observed maximum depth equals 4. -/
theorem C4_fixed_header_columns (maxDepth : Nat) (minContribution : ℚ)
    (impact_category_name referenceUnit : String) (root : UTree) :
    ((1, index_of 'F', CellVal.str ("Result [" ++ referenceUnit ++ "]"))
        ∈ (write_sheet maxDepth minContribution impact_category_name referenceUnit
            root).cells)
    ∧ ((1, index_of 'G', CellVal.str "Percentage [%]")
        ∈ (write_sheet maxDepth minContribution impact_category_name referenceUnit
            root).cells)
    ∧ ∀ i : Nat,
        i < (write_sheet maxDepth minContribution impact_category_name referenceUnit
            root).results.length →
        ((i + 2,
            ((write_sheet maxDepth minContribution impact_category_name referenceUnit
                root).max_column : ℤ) + 1,
            CellVal.num ((write_sheet maxDepth minContribution impact_category_name
                referenceUnit root).results.getD i 0))
          ∈ (write_sheet maxDepth minContribution impact_category_name referenceUnit
              root).cells) := by
  have htrav := traverse_travInv
    { maxDepth := maxDepth, minContribution := minContribution, total_result := root.result }
    root none
    { create_header impact_category_name referenceUnit initialSheetState with
        row_index := 1, max_column := 0 }
    (by simp [Path.length])
  refine ⟨?_, ?_, ?_⟩
  · rw [write_sheet_eq]
    apply (write_results_fields _ _).2.2.2.2
    apply htrav.2.2
    simp [create_header, initialSheetState]
  · rw [write_sheet_eq]
    apply (write_results_fields _ _).2.2.2.2
    apply htrav.2.2
    simp [create_header, initialSheetState]
  · intro i hi
    rw [write_sheet_eq] at hi ⊢
    exact wr_res_mem root.result _ i hi

/-- C4 witness for the amended claim: on the root-only traversal the result
header sits at column 5 and the row-0 result value at column
`max_column + 1 = 1`. -/
theorem C4_fixed_header_columns_witness :
    0 < (write_sheet 4 0 "Climate change" "kg CO2 eq" oneNode).results.length
    ∧ ((0 + 2,
        ((write_sheet 4 0 "Climate change" "kg CO2 eq" oneNode).max_column : ℤ) + 1,
        CellVal.num ((write_sheet 4 0 "Climate change" "kg CO2 eq"
            oneNode).results.getD 0 0))
      ∈ (write_sheet 4 0 "Climate change" "kg CO2 eq" oneNode).cells) :=
  ⟨by with_unfolding_all decide,
    (C4_fixed_header_columns 4 0 "Climate change" "kg CO2 eq" oneNode).2.2 0
      (by with_unfolding_all decide)⟩

end UpstreamTreeSheet

/-- C1 (code bug): on a workbook whose header is well-formed and whose row 2
has text in the `Modified value` column, the numeric extraction throws, the
handler prints `Fail to parse A2 parameter.` — and then `parse_parameter`
falls through its `except` block without a `return`, yielding Python `None`,
so the caller's `parameters.update(None)` raises `TypeError`: the whole batch
aborts with no mapping produced, although a further well-formed row (row 3)
was still to be parsed.  The claim (diagnose, skip, continue) matches the
function's own declared return type and its sibling soft-failure branches;
the missing `return {}` is the slip. -/
theorem C1_extraction_failure_aborts_batch :
    Lco2Modeler.parse_workbook_parameters true sheetBadValue =
      (["Cell D1 does not exist!", "Fail to parse A2 parameter."],
        Except.error PyError.typeError) := by
  with_unfolding_all rfl

/-- C2 counterexample: on a sheet whose header row has three present text
cells none of which is named `Parameter`, plus one well-formed data row,
header resolution emits no diagnostic about the missing required column (the
only printed line concerns the physically absent cell one past the header),
and parsing does **not** run to completion with soft row failures: the first
data row raises an uncaught `KeyError` and the whole parse aborts. -/
theorem C2_counterexample :
    Lco2Modeler.parse_workbook_parameters true sheetNoParamColumn =
      (["Cell D1 does not exist!"], Except.error (PyError.keyError "Parameter")) := by
  with_unfolding_all rfl

/-- C2 (amended): when a required column (here `Parameter`) is absent from the
resolved header dictionary and the sheet has at least one data row, the parse
of the data rows does not complete: the first `parse_parameter` call raises an
uncaught `KeyError` which aborts `parse_workbook_parameters`. -/
theorem C2_missing_required_column_aborts (sheet : PSheet) (cols : HDict)
    (h1 : (Lco2Modeler.get_headers true sheet).2 = Except.ok cols)
    (h2 : hget cols "Parameter" = none)
    (h3 : 1 ≤ sheet.lastRowNum) :
    (Lco2Modeler.parse_workbook_parameters true sheet).2 =
      Except.error (PyError.keyError "Parameter") := by
  have hp : Lco2Modeler.parse_parameter true sheet 1 cols =
      ([], Except.error (PyError.keyError "Parameter")) := by
    unfold Lco2Modeler.parse_parameter
    rw [h2]
  obtain ⟨n, hn⟩ : ∃ n, sheet.lastRowNum = n + 1 := ⟨sheet.lastRowNum - 1, by omega⟩
  simp only [Lco2Modeler.parse_workbook_parameters]
  rw [h1]
  simp only [hn, List.range'_succ, Lco2Modeler.parse_rows, hp]

/-- C2 witness: the amended claim applied to the concrete header-misnamed
sheet. -/
theorem C2_missing_required_column_aborts_witness :
    (Lco2Modeler.get_headers true sheetNoParamColumn).2 = Except.ok colsNoParam
    ∧ hget colsNoParam "Parameter" = none
    ∧ 1 ≤ sheetNoParamColumn.lastRowNum
    ∧ (Lco2Modeler.parse_workbook_parameters true sheetNoParamColumn).2 =
        Except.error (PyError.keyError "Parameter") :=
  ⟨by with_unfolding_all rfl, rfl, by decide,
    C2_missing_required_column_aborts sheetNoParamColumn colsNoParam
      (by with_unfolding_all rfl) rfl (by decide)⟩

/-- C7: applying the override mapping matches each parameter by the exact
`(name, context)` pair, where the context is the owning process name for a
scoped parameter and the sentinel `global` for an unscoped one: a parameter
whose key is bound gets the override value, and one with no matching key is
left untouched (no error). -/
theorem C7_override_matching (db : Nat → String) (system : ProductSystem)
    (new_params : PDict) (i j : Nat) (ps : ParameterRedefSet) (param : ParameterRedef)
    (h1 : system.parameterSets[i]? = some ps)
    (h2 : ps.parameters[j]? = some param) :
    ((Lco2Modeler.set_system_parameters db system new_params).parameterSets[i]?.bind
        (fun ps' => ps'.parameters[j]?))
      = some (match dget new_params (param.name, context_of db param) with
              | some v => { param with value := v }
              | none => param) := by
  unfold Lco2Modeler.set_system_parameters
  by_cases he : system.parameterSets = []
  · rw [he] at h1
    simp at h1
  · rw [if_neg he]
    simp only [List.getElem?_map, h1, Option.map_some', Option.some_bind]
    simp only [List.getElem?_map, h2, Option.map_some']

/-- C7 witness: with overrides `("Density","global") ↦ 5` and
`("Density","ProcessA") ↦ 9`, the `Density` parameter scoped to process `7`
(named `ProcessA`) is set to `9`, not `5`. -/
theorem C7_override_matching_witness :
    demoSystem.parameterSets[0]? =
      some ⟨[⟨"Density", some 7, 1⟩, ⟨"Density", none, 2⟩, ⟨"Other", none, 3⟩]⟩
    ∧ (⟨[⟨"Density", some 7, 1⟩, ⟨"Density", none, 2⟩,
          ⟨"Other", none, 3⟩]⟩ : ParameterRedefSet).parameters[0]? =
        some ⟨"Density", some 7, 1⟩
    ∧ ((Lco2Modeler.set_system_parameters demoDb demoSystem
          demoOverrides).parameterSets[0]?.bind (fun ps' => ps'.parameters[0]?))
        = some ⟨"Density", some 7, 9⟩ :=
  ⟨rfl, rfl,
    (C7_override_matching demoDb demoSystem demoOverrides 0 0
        ⟨[⟨"Density", some 7, 1⟩, ⟨"Density", none, 2⟩, ⟨"Other", none, 3⟩]⟩
        ⟨"Density", some 7, 1⟩ rfl rfl).trans (by with_unfolding_all rfl)⟩

/-- C10: `index_of` and `letter_of` are mutually inverse over the uppercase
alphabet: `letter_of (index_of c) = c` for every letter `c` in `A..Z`, and
`index_of (letter_of i) = i` for every `i` in `0..25`. -/
theorem C10_letter_index_inverse :
    (∀ c ∈ "ABCDEFGHIJKLMNOPQRSTUVWXYZ".toList, letter_of (index_of c) = c)
    ∧ (∀ i : Nat, i < 26 → index_of (letter_of (i : ℤ)) = (i : ℤ)) := by
  constructor
  · decide
  · decide

/-- C10 witness: the inverse laws at the concrete letter `C` and index `3`. -/
theorem C10_letter_index_inverse_witness :
    ('C' ∈ "ABCDEFGHIJKLMNOPQRSTUVWXYZ".toList ∧ letter_of (index_of 'C') = 'C')
    ∧ ((3 : Nat) < 26 ∧ index_of (letter_of ((3 : Nat) : ℤ)) = ((3 : Nat) : ℤ)) :=
  ⟨⟨by decide, C10_letter_index_inverse.1 'C' (by decide)⟩,
    ⟨by decide, C10_letter_index_inverse.2 3 (by decide)⟩⟩

end Orsted
